import Mathlib

/-!
Verification development for the wide-angle correction/projection engine of
egjs-view360: the GLSL correction shaders (direction-to-source-pixel math and
the rotation matrix), the offscreen `CorrectionPass`, the two wide-angle
projections and their uniform/resource state machines.

GLSL float arithmetic is embedded over the reals; GLSL `mat3` constructors are
column-major, so each matrix literal below is written with the rows transposed
relative to the constructor-argument order of the source.
-/

namespace View360

open Real

/-- GLSL `vec3` over the reals. -/
structure Vec3 where
  x : ℝ
  y : ℝ
  z : ℝ

/-- GLSL `length(dir)`: the Euclidean norm. -/
noncomputable def Vec3.length (v : Vec3) : ℝ :=
  Real.sqrt (v.x ^ 2 + v.y ^ 2 + v.z ^ 2)

/-- GLSL `clamp(x, lo, hi) = min(max(x, lo), hi)`. -/
noncomputable def clamp (x lo hi : ℝ) : ℝ := min (max x lo) hi

/-- GLSL two-argument `atan(y, x)`: the angle of the point `(x, y)` in
`(-π, π]`, with `atan2 0 0 = 0`. -/
noncomputable def atan2 (y x : ℝ) : ℝ :=
  if 0 < x then Real.arctan (y / x)
  else if x < 0 then
    (if 0 ≤ y then Real.arctan (y / x) + Real.pi else Real.arctan (y / x) - Real.pi)
  else
    (if 0 < y then Real.pi / 2 else if y < 0 then -(Real.pi / 2) else 0)

/-- 3×3 real matrix, the embedding of GLSL `mat3`. -/
abbrev Mat3 := Matrix (Fin 3) (Fin 3) ℝ

/-- GLSL `m * v` for `mat3 m` and `vec3 v` (matrix applied to column vector). -/
noncomputable def mulVec3 (m : Mat3) (v : Vec3) : Vec3 :=
  ⟨m 0 0 * v.x + m 0 1 * v.y + m 0 2 * v.z,
   m 1 0 * v.x + m 1 1 * v.y + m 1 2 * v.z,
   m 2 0 * v.x + m 2 1 * v.y + m 2 2 * v.z⟩

/-- The shader constant `const float PI = 3.14159265359`. -/
noncomputable def glslPI : ℝ := 3.14159265359

/-- The value a fragment shader run produces: either a sample of the source
texture at a uv coordinate, or the opaque-black fill `vec4(0,0,0,1)`. -/
inductive FragOut where
  | black : FragOut
  | sample : ℝ → ℝ → FragOut

/-! ### `shader/correction.frag` (the offscreen correction shader) -/

namespace CorrectionFrag

/-- `buildRotation` of correction.frag: `Rz * (Rx * Ry)` where the GLSL
`mat3` constructors are column-major (rows below are the transposed
constructor arguments). -/
noncomputable def buildRotation (yaw pitch roll : ℝ) : Mat3 :=
  -- mat3 Ry = mat3(cy, 0, sy,  0, 1, 0,  -sy, 0, cy);
  let Ry : Mat3 := !![Real.cos yaw, 0, -Real.sin yaw;
                      0, 1, 0;
                      Real.sin yaw, 0, Real.cos yaw]
  -- mat3 Rx = mat3(1, 0, 0,  0, cp, -sp,  0, sp, cp);
  let Rx : Mat3 := !![1, 0, 0;
                      0, Real.cos pitch, Real.sin pitch;
                      0, -Real.sin pitch, Real.cos pitch]
  -- mat3 Rz = mat3(cr, -sr, 0,  sr, cr, 0,  0, 0, 1);
  let Rz : Mat3 := !![Real.cos roll, Real.sin roll, 0;
                      -Real.sin roll, Real.cos roll, 0;
                      0, 0, 1]
  Rz * (Rx * Ry)

/-- `myTranspose` of correction.frag, written entrywise as in the source
(column-major constructor, so the result's entry at row `i`, column `j` is
`m j i`). -/
noncomputable def myTranspose (m : Mat3) : Mat3 :=
  !![m 0 0, m 1 0, m 2 0;
     m 0 1, m 1 1, m 2 1;
     m 0 2, m 1 2, m 2 2]

/-- `dirToErpCoord` of correction.frag: direction to ERP source pixel, `none`
standing for the `vec3(0,0,-1)` no-coverage sentinel. -/
noncomputable def dirToErpCoord (uHFov uVFov imgW imgH : ℝ) (dir : Vec3) :
    Option (ℝ × ℝ) :=
  let lon := atan2 dir.x dir.z
  let lat := Real.arcsin (clamp dir.y (-1) 1)
  let halfLon := uHFov * 0.5
  let halfLat := uVFov * 0.5
  if |lon| > halfLon ∨ |lat| > halfLat then none
  else
    let u := (lon / uHFov + 0.5) * (imgW - 1)
    let v := (0.5 - lat / uVFov) * (imgH - 1)
    if u < 0 ∨ u ≥ imgW ∨ v < 0 ∨ v ≥ imgH then none
    else some (u, v)

/-- `dirToFisheyeCoord` of correction.frag: direction to equidistant-fisheye
source pixel, `none` standing for the `vec3(0,0,-1)` no-coverage sentinel. -/
noncomputable def dirToFisheyeCoord (uFisheyeFov imgW imgH : ℝ) (dir : Vec3) :
    Option (ℝ × ℝ) :=
  let len := dir.length
  let theta := Real.arccos (clamp (dir.z / len) (-1) 1)
  if dir.z ≤ 0 then none
  else
    let maxTheta := uFisheyeFov * 0.5
    if theta > maxTheta then none
    else
      let fisheyeRadius := min imgW imgH * 0.5
      let fisheyeFocalLen := fisheyeRadius / maxTheta
      let r := fisheyeFocalLen * theta
      let imgAngle := atan2 dir.x (-dir.y)
      let ix := imgW * 0.5 + r * Real.sin imgAngle
      let iy := imgH * 0.5 + r * Real.cos imgAngle
      if ix < 0 ∨ ix ≥ imgW ∨ iy < 0 ∨ iy ≥ imgH then none
      else some (ix, iy)

/-- `main` of correction.frag. -/
noncomputable def main (uMode : ℤ) (uRotYPR : Vec3)
    (uHFov uVFov uFisheyeFov imgW imgH : ℝ) (vUV : ℝ × ℝ) : FragOut :=
  let R := buildRotation uRotYPR.x uRotYPR.y uRotYPR.z
  let Rinv := myTranspose R
  let phi := (vUV.1 - 0.5) * 2 * glslPI
  let lat := (vUV.2 - 0.5) * glslPI
  let cosLat := Real.cos lat
  let worldDir : Vec3 := ⟨cosLat * Real.sin phi, Real.sin lat, cosLat * Real.cos phi⟩
  let imgDir := mulVec3 Rinv worldDir
  let imgCoord := if uMode = 0 then dirToErpCoord uHFov uVFov imgW imgH imgDir
                  else dirToFisheyeCoord uFisheyeFov imgW imgH imgDir
  match imgCoord with
  | some (u, v) => FragOut.sample (u / imgW) (v / imgH)
  | none => FragOut.black

end CorrectionFrag

/-! ### `shader/wideangle_realtime.frag` (the realtime correction shader,
appended after `uniform/UniformInt.ts`) -/

namespace RealtimeFrag

/-- `buildRotation` of wideangle_realtime.frag (same text as the offscreen
shader's). -/
noncomputable def buildRotation (yaw pitch roll : ℝ) : Mat3 :=
  let Ry : Mat3 := !![Real.cos yaw, 0, -Real.sin yaw;
                      0, 1, 0;
                      Real.sin yaw, 0, Real.cos yaw]
  let Rx : Mat3 := !![1, 0, 0;
                      0, Real.cos pitch, Real.sin pitch;
                      0, -Real.sin pitch, Real.cos pitch]
  let Rz : Mat3 := !![Real.cos roll, Real.sin roll, 0;
                      -Real.sin roll, Real.cos roll, 0;
                      0, 0, 1]
  Rz * (Rx * Ry)

/-- `myTranspose` of wideangle_realtime.frag. -/
noncomputable def myTranspose (m : Mat3) : Mat3 :=
  !![m 0 0, m 1 0, m 2 0;
     m 0 1, m 1 1, m 2 1;
     m 0 2, m 1 2, m 2 2]

/-- `dirToErpCoord` of wideangle_realtime.frag. -/
noncomputable def dirToErpCoord (uHFov uVFov imgW imgH : ℝ) (dir : Vec3) :
    Option (ℝ × ℝ) :=
  let lon := atan2 dir.x dir.z
  let lat := Real.arcsin (clamp dir.y (-1) 1)
  let halfLon := uHFov * 0.5
  let halfLat := uVFov * 0.5
  if |lon| > halfLon ∨ |lat| > halfLat then none
  else
    let u := (lon / uHFov + 0.5) * (imgW - 1)
    let v := (0.5 - lat / uVFov) * (imgH - 1)
    if u < 0 ∨ u ≥ imgW ∨ v < 0 ∨ v ≥ imgH then none
    else some (u, v)

/-- `dirToFisheyeCoord` of wideangle_realtime.frag. -/
noncomputable def dirToFisheyeCoord (uFisheyeFov imgW imgH : ℝ) (dir : Vec3) :
    Option (ℝ × ℝ) :=
  let len := dir.length
  let theta := Real.arccos (clamp (dir.z / len) (-1) 1)
  if dir.z ≤ 0 then none
  else
    let maxTheta := uFisheyeFov * 0.5
    if theta > maxTheta then none
    else
      let fisheyeRadius := min imgW imgH * 0.5
      let fisheyeFocalLen := fisheyeRadius / maxTheta
      let r := fisheyeFocalLen * theta
      let imgAngle := atan2 dir.x (-dir.y)
      let ix := imgW * 0.5 + r * Real.sin imgAngle
      let iy := imgH * 0.5 + r * Real.cos imgAngle
      if ix < 0 ∨ ix ≥ imgW ∨ iy < 0 ∨ iy ≥ imgH then none
      else some (ix, iy)

/-- `main` of wideangle_realtime.frag: identical to the offscreen shader's
`main` except for the leading zero-size guard on `uImgSize`. -/
noncomputable def main (uMode : ℤ) (uRotYPR : Vec3)
    (uHFov uVFov uFisheyeFov imgW imgH : ℝ) (vUV : ℝ × ℝ) : FragOut :=
  if imgW ≤ 0 ∨ imgH ≤ 0 then FragOut.black
  else
    let R := buildRotation uRotYPR.x uRotYPR.y uRotYPR.z
    let Rinv := myTranspose R
    let phi := (vUV.1 - 0.5) * 2 * glslPI
    let lat := (vUV.2 - 0.5) * glslPI
    let cosLat := Real.cos lat
    let worldDir : Vec3 := ⟨cosLat * Real.sin phi, Real.sin lat, cosLat * Real.cos phi⟩
    let imgDir := mulVec3 Rinv worldDir
    let imgCoord := if uMode = 0 then dirToErpCoord uHFov uVFov imgW imgH imgDir
                    else dirToFisheyeCoord uFisheyeFov imgW imgH imgDir
    match imgCoord with
    | some (u, v) => FragOut.sample (u / imgW) (v / imgH)
    | none => FragOut.black

end RealtimeFrag

/-- Equidistant-fisheye radial law of correction.frag:
`r = fisheyeFocalLen * theta` with `fisheyeFocalLen = (min w h * 0.5) / (fov * 0.5)`,
exactly the `r` computed inside `dirToFisheyeCoord`. -/
noncomputable def fisheyeR (uFisheyeFov imgW imgH theta : ℝ) : ℝ :=
  (min imgW imgH * 0.5 / (uFisheyeFov * 0.5)) * theta

/-! ### Helper lemmas about the rotation factors -/

theorem transpose_lit (a b c d e f g h i : ℝ) :
    (!![a, b, c; d, e, f; g, h, i] : Mat3).transpose = !![a, d, g; b, e, h; c, f, i] := by
  ext i' j'
  fin_cases i' <;> fin_cases j' <;> simp [Matrix.transpose_apply]

theorem mul_transpose_one_of_factors {A B : Mat3}
    (hA : A * A.transpose = 1) (hB : B * B.transpose = 1) :
    (A * B) * (A * B).transpose = 1 := by
  rw [Matrix.transpose_mul, Matrix.mul_assoc, ← Matrix.mul_assoc B, hB,
    Matrix.one_mul, hA]

theorem Ry_orth (y : ℝ) :
    (!![Real.cos y, 0, -Real.sin y; 0, 1, 0; Real.sin y, 0, Real.cos y] : Mat3) *
      (!![Real.cos y, 0, -Real.sin y; 0, 1, 0; Real.sin y, 0, Real.cos y] : Mat3).transpose = 1 := by
  rw [transpose_lit]
  ext i j
  fin_cases i <;> fin_cases j <;>
    simp [-mul_eq_zero, Matrix.mul_apply, Fin.sum_univ_three, Matrix.one_apply,
      Matrix.vecHead, Matrix.vecTail] <;>
    first
      | ring1
      | linear_combination Real.sin_sq_add_cos_sq y

theorem Rx_orth (p : ℝ) :
    (!![1, 0, 0; 0, Real.cos p, Real.sin p; 0, -Real.sin p, Real.cos p] : Mat3) *
      (!![1, 0, 0; 0, Real.cos p, Real.sin p; 0, -Real.sin p, Real.cos p] : Mat3).transpose = 1 := by
  rw [transpose_lit]
  ext i j
  fin_cases i <;> fin_cases j <;>
    simp [-mul_eq_zero, Matrix.mul_apply, Fin.sum_univ_three, Matrix.one_apply,
      Matrix.vecHead, Matrix.vecTail] <;>
    first
      | ring1
      | linear_combination Real.sin_sq_add_cos_sq p

theorem Rz_orth (r : ℝ) :
    (!![Real.cos r, Real.sin r, 0; -Real.sin r, Real.cos r, 0; 0, 0, 1] : Mat3) *
      (!![Real.cos r, Real.sin r, 0; -Real.sin r, Real.cos r, 0; 0, 0, 1] : Mat3).transpose = 1 := by
  rw [transpose_lit]
  ext i j
  fin_cases i <;> fin_cases j <;>
    simp [-mul_eq_zero, Matrix.mul_apply, Fin.sum_univ_three, Matrix.one_apply,
      Matrix.vecHead, Matrix.vecTail] <;>
    first
      | ring1
      | linear_combination Real.sin_sq_add_cos_sq r

theorem myTranspose_eq_transpose (m : Mat3) :
    CorrectionFrag.myTranspose m = m.transpose := by
  ext i j
  fin_cases i <;> fin_cases j <;>
    simp [CorrectionFrag.myTranspose, Matrix.transpose_apply]

theorem buildRotation_mul_transpose (y p r : ℝ) :
    CorrectionFrag.buildRotation y p r * (CorrectionFrag.buildRotation y p r).transpose = 1 := by
  exact mul_transpose_one_of_factors (Rz_orth r)
    (mul_transpose_one_of_factors (Rx_orth p) (Ry_orth y))

/-! ### C1 -/

/-- C1: `dirToErpCoord` computes `lon = atan2(dir.x, dir.z)` and
`lat = asin(clamp(dir.y, -1, 1))`, returns the no-coverage sentinel exactly
when `|lon| > hfov/2` or `|lat| > vfov/2` (strict `>`) or the computed pixel
`(u, v)` lies outside `[0, width) × [0, height)`, and otherwise returns
`u = (lon/hfov + 0.5)·(width-1)`, `v = (0.5 - lat/vfov)·(height-1)`; in
particular with `hfov = 180°`, `vfov = 90°` (in radians) and a 4096×2048
source, the direction `(0, 0, 1)` maps to the pixel `(2047.5, 1023.5)`. -/
theorem dirToErpCoord_spec :
    (∀ (hfov vfov w h : ℝ) (dir : Vec3),
      (CorrectionFrag.dirToErpCoord hfov vfov w h dir = none ↔
        |atan2 dir.x dir.z| > hfov / 2 ∨
        |Real.arcsin (clamp dir.y (-1) 1)| > vfov / 2 ∨
        (atan2 dir.x dir.z / hfov + 0.5) * (w - 1) < 0 ∨
        (atan2 dir.x dir.z / hfov + 0.5) * (w - 1) ≥ w ∨
        (0.5 - Real.arcsin (clamp dir.y (-1) 1) / vfov) * (h - 1) < 0 ∨
        (0.5 - Real.arcsin (clamp dir.y (-1) 1) / vfov) * (h - 1) ≥ h) ∧
      (CorrectionFrag.dirToErpCoord hfov vfov w h dir ≠ none →
        CorrectionFrag.dirToErpCoord hfov vfov w h dir =
          some ((atan2 dir.x dir.z / hfov + 0.5) * (w - 1),
                (0.5 - Real.arcsin (clamp dir.y (-1) 1) / vfov) * (h - 1)))) ∧
    CorrectionFrag.dirToErpCoord π (π / 2) 4096 2048 ⟨0, 0, 1⟩ =
      some (2047.5, 1023.5) := by
  constructor
  · intro hfov vfov w h dir
    have e2 : ∀ x : ℝ, x * 0.5 = x / 2 := fun x => by ring
    simp only [CorrectionFrag.dirToErpCoord, e2]
    constructor
    · split_ifs with h1 h2 <;> simp_all <;> tauto
    · split_ifs with h1 h2 <;> simp_all
  · have h0 : atan2 0 1 = 0 := by simp [atan2]
    have hc : clamp 0 (-1) 1 = 0 := by norm_num [clamp]
    simp only [CorrectionFrag.dirToErpCoord, h0, hc, Real.arcsin_zero]
    rw [if_neg, if_neg]
    · norm_num
    · norm_num
    · push_neg
      constructor <;> (rw [abs_zero]; positivity)

/-! ### C2 -/

/-- C2: `dirToFisheyeCoord` computes `theta = acos(clamp(dir.z/|dir|, -1, 1))`,
returns the no-coverage sentinel exactly when `dir.z ≤ 0` or
`theta > fisheyeFov/2` or the computed pixel lies outside
`[0, width) × [0, height)`, and otherwise returns
`u = width/2 + r·sin(atan2(dir.x, -dir.y))`,
`v = height/2 + r·cos(atan2(dir.x, -dir.y))` with
`r = (min(width,height)/2 / (fisheyeFov/2))·theta`; moreover `r(0) = 0` and,
for fixed positive `fisheyeFov`, `r` is monotone in `theta` for nonnegative
image dimensions and strictly increasing for positive ones. -/
theorem dirToFisheyeCoord_spec :
    (∀ (fov w h : ℝ) (dir : Vec3),
      (CorrectionFrag.dirToFisheyeCoord fov w h dir = none ↔
        dir.z ≤ 0 ∨
        Real.arccos (clamp (dir.z / dir.length) (-1) 1) > fov / 2 ∨
        w * 0.5 + fisheyeR fov w h (Real.arccos (clamp (dir.z / dir.length) (-1) 1)) *
          Real.sin (atan2 dir.x (-dir.y)) < 0 ∨
        w * 0.5 + fisheyeR fov w h (Real.arccos (clamp (dir.z / dir.length) (-1) 1)) *
          Real.sin (atan2 dir.x (-dir.y)) ≥ w ∨
        h * 0.5 + fisheyeR fov w h (Real.arccos (clamp (dir.z / dir.length) (-1) 1)) *
          Real.cos (atan2 dir.x (-dir.y)) < 0 ∨
        h * 0.5 + fisheyeR fov w h (Real.arccos (clamp (dir.z / dir.length) (-1) 1)) *
          Real.cos (atan2 dir.x (-dir.y)) ≥ h) ∧
      (CorrectionFrag.dirToFisheyeCoord fov w h dir ≠ none →
        CorrectionFrag.dirToFisheyeCoord fov w h dir =
          some (w * 0.5 +
                  fisheyeR fov w h (Real.arccos (clamp (dir.z / dir.length) (-1) 1)) *
                    Real.sin (atan2 dir.x (-dir.y)),
                h * 0.5 +
                  fisheyeR fov w h (Real.arccos (clamp (dir.z / dir.length) (-1) 1)) *
                    Real.cos (atan2 dir.x (-dir.y))))) ∧
    (∀ fov w h : ℝ, fisheyeR fov w h 0 = 0) ∧
    (∀ fov w h : ℝ, 0 < fov → 0 ≤ min w h → Monotone (fisheyeR fov w h)) ∧
    (∀ fov w h : ℝ, 0 < fov → 0 < min w h → StrictMono (fisheyeR fov w h)) := by
  refine ⟨?_, ?_, ?_, ?_⟩
  · intro fov w h dir
    have e2 : ∀ x : ℝ, x * 0.5 = x / 2 := fun x => by ring
    simp only [CorrectionFrag.dirToFisheyeCoord, fisheyeR, e2]
    constructor
    · split_ifs with h1 h2 h3 <;> simp_all
    · split_ifs with h1 h2 h3 <;> simp_all
  · intro fov w h
    simp [fisheyeR]
  · intro fov w h hfov hwh a b hab
    have hc : 0 ≤ min w h * 0.5 / (fov * 0.5) := by positivity
    exact mul_le_mul_of_nonneg_left hab hc
  · intro fov w h hfov hwh a b hab
    have hc : 0 < min w h * 0.5 / (fov * 0.5) := by positivity
    exact (mul_lt_mul_left hc).2 hab

/-! ### C3 -/

/-- C3: the rotation matrix `R = Rz(roll)·(Rx(pitch)·Ry(yaw))` built by
`buildRotation` is orthonormal — `R · Rᵗ = I` exactly over the reals — and the
inverse the shaders use, computed by `myTranspose`, is the transpose and hence
a genuine two-sided inverse of `buildRotation`'s result. -/
theorem buildRotation_orthonormal :
    ∀ yaw pitch roll : ℝ,
      CorrectionFrag.myTranspose (CorrectionFrag.buildRotation yaw pitch roll) =
        (CorrectionFrag.buildRotation yaw pitch roll).transpose ∧
      CorrectionFrag.buildRotation yaw pitch roll *
        (CorrectionFrag.buildRotation yaw pitch roll).transpose = 1 ∧
      CorrectionFrag.buildRotation yaw pitch roll *
        CorrectionFrag.myTranspose (CorrectionFrag.buildRotation yaw pitch roll) = 1 ∧
      CorrectionFrag.myTranspose (CorrectionFrag.buildRotation yaw pitch roll) *
        CorrectionFrag.buildRotation yaw pitch roll = 1 := by
  intro y p r
  have ht := myTranspose_eq_transpose (CorrectionFrag.buildRotation y p r)
  have h1 := buildRotation_mul_transpose y p r
  refine ⟨ht, h1, by rw [ht]; exact h1, ?_⟩
  rw [ht, Matrix.mul_eq_one_comm]
  exact h1

/-! ### C4 -/

/-- C4: for every identical uniform assignment with both image-size components
positive and every fragment UV in `[0,1]²`, the offscreen correction shader
and the realtime shader build the same rotation matrix and produce the same
fragment output (same valid/invalid coverage decision and the same source
sampling coordinate). -/
theorem realtime_matches_offscreen :
    (∀ yaw pitch roll : ℝ,
      RealtimeFrag.buildRotation yaw pitch roll =
        CorrectionFrag.buildRotation yaw pitch roll) ∧
    (∀ (uMode : ℤ) (uRotYPR : Vec3) (uHFov uVFov uFisheyeFov w h : ℝ)
        (uv : ℝ × ℝ),
      0 < w → 0 < h → 0 ≤ uv.1 → uv.1 ≤ 1 → 0 ≤ uv.2 → uv.2 ≤ 1 →
      RealtimeFrag.main uMode uRotYPR uHFov uVFov uFisheyeFov w h uv =
        CorrectionFrag.main uMode uRotYPR uHFov uVFov uFisheyeFov w h uv) := by
  constructor
  · intro yaw pitch roll
    rfl
  · intro uMode uRotYPR uHFov uVFov uFisheyeFov w h uv hw hh _ _ _ _
    unfold RealtimeFrag.main
    rw [if_neg (by push_neg; exact ⟨hw, hh⟩)]
    rfl

/-- Witness for C4 at a concrete uniform assignment and fragment. -/
theorem realtime_matches_offscreen_witness :
    (0 : ℝ) < 4096 ∧ (0 : ℝ) < 2048 ∧
    RealtimeFrag.main 0 ⟨0, 0, 0⟩ π (π / 2) π 4096 2048 (0.5, 0.5) =
      CorrectionFrag.main 0 ⟨0, 0, 0⟩ π (π / 2) π 4096 2048 (0.5, 0.5) :=
  ⟨by norm_num, by norm_num,
    realtime_matches_offscreen.2 0 ⟨0, 0, 0⟩ π (π / 2) π 4096 2048 (0.5, 0.5)
      (by norm_num) (by norm_num) (by norm_num) (by norm_num) (by norm_num)
      (by norm_num)⟩

/-! ### C10 -/

/-- C10: the realtime fragment shader tests `uImgSize` first and outputs
opaque black whenever either component is `≤ 0`, before any mapping
computation; consequently it only ever samples (and so only ever divides by
`uImgSize.x`/`uImgSize.y`) when both components are strictly positive. -/
theorem realtime_zero_size_guard :
    ∀ (uMode : ℤ) (uRotYPR : Vec3) (uHFov uVFov uFisheyeFov w h : ℝ)
      (uv : ℝ × ℝ),
      (w ≤ 0 ∨ h ≤ 0 →
        RealtimeFrag.main uMode uRotYPR uHFov uVFov uFisheyeFov w h uv =
          FragOut.black) ∧
      (∀ u v : ℝ,
        RealtimeFrag.main uMode uRotYPR uHFov uVFov uFisheyeFov w h uv =
          FragOut.sample u v →
        0 < w ∧ 0 < h) := by
  intro uMode uRotYPR uHFov uVFov uFisheyeFov w h uv
  constructor
  · intro hcond
    unfold RealtimeFrag.main
    rw [if_pos hcond]
  · intro u v hs
    by_cases hg : w ≤ 0 ∨ h ≤ 0
    · exfalso
      unfold RealtimeFrag.main at hs
      rw [if_pos hg] at hs
      exact FragOut.noConfusion hs
    · push_neg at hg
      exact hg

/-- Witness for C10: a zero-width image makes the realtime shader output
opaque black. -/
theorem realtime_zero_size_guard_witness :
    ((0 : ℝ) ≤ 0 ∨ (2048 : ℝ) ≤ 0) ∧
    RealtimeFrag.main 0 ⟨0, 0, 0⟩ 1 1 1 0 2048 (0.5, 0.5) = FragOut.black :=
  ⟨Or.inl le_rfl,
    (realtime_zero_size_guard 0 ⟨0, 0, 0⟩ 1 1 1 0 2048 (0.5, 0.5)).1
      (Or.inl le_rfl)⟩

/-! ### GPU-resource state machine for `createMesh`
(`WideAngleCorrectionProjection.createMesh` in its two variants) -/

/-- The error kinds thrown by `createMesh` of the wide-angle projections:
an unsupported source kind (cube texture, or video for the image-only
variant), a dimension exceeding `ctx.maxTextureSize`, or a `null` result
from `gl.createTexture`/`gl.createBuffer`. -/
inductive GLErr where
  | unsupportedSourceKind : GLErr
  | dimensionExceedsDeviceLimit : GLErr
  | resourceAllocationFailure : GLErr
deriving DecidableEq

/-- Counts of live GPU objects, plus two oracles saying whether
`gl.createTexture` / `gl.createBuffer` return a real object or `null`.
External collaborators (`ctx.createFramebuffer`, `ctx.createProgram`,
`ShaderProgram`, `ctx.createVAO`) are assumed to succeed. -/
structure GLState where
  texOk : Bool
  bufOk : Bool
  textures : ℕ
  buffers : ℕ
  programs : ℕ
  framebuffers : ℕ
  vaos : ℕ
deriving DecidableEq

/-- Total number of live GPU objects. -/
def GLState.live (s : GLState) : ℕ :=
  s.textures + s.buffers + s.programs + s.framebuffers + s.vaos

/-- Source texture shape as `createMesh` inspects it. -/
structure SrcTexture where
  isCube : Bool
  isVideo : Bool
  width : ℕ
  height : ℕ

/-- The `CorrectionPass` constructor: `ctx.createFramebuffer` (one
framebuffer plus its color texture), `ctx.createProgram`, then
`gl.createBuffer` which throws `"无法创建顶点缓冲区"` when it returns `null`
(at that point the framebuffer, texture and program stay allocated). -/
def correctionPassNew (s : GLState) : Option GLErr × GLState :=
  let s1 : GLState := { s with framebuffers := s.framebuffers + 1, textures := s.textures + 1 }
  let s2 : GLState := { s1 with programs := s1.programs + 1 }
  if s2.bufOk then (none, { s2 with buffers := s2.buffers + 1 })
  else (some GLErr.resourceAllocationFailure, s2)

/-- `WideAngleCorrectionProjection.createMesh` of the video-capable FBO
variant (src/unnamed/part_006): cube check, input/output dimension checks,
`CorrectionPass` construction, then either the video-uniform constructor's
`gl.createTexture` (video path) or the input-texture
create / upload / render / delete sequence (image path), and finally the
`ShaderProgram` and VAO of the mesh. Returns the thrown error (if any)
together with the GPU state at the moment the call ends. -/
def createMesh (maxTextureSize outputWidth outputHeight : ℕ) (tex : SrcTexture)
    (s : GLState) : Option GLErr × GLState :=
  if tex.isCube then (some GLErr.unsupportedSourceKind, s)
  else if tex.width > maxTextureSize ∨ tex.height > maxTextureSize then
    (some GLErr.dimensionExceedsDeviceLimit, s)
  else if outputWidth > maxTextureSize ∨ outputHeight > maxTextureSize then
    (some GLErr.dimensionExceedsDeviceLimit, s)
  else if tex.isVideo then
    match correctionPassNew s with
    | (some e, s1) => (some e, s1)
    | (none, s1) =>
      if s1.texOk then
        let s2 : GLState := { s1 with textures := s1.textures + 1 }
        (none, { s2 with programs := s2.programs + 1, vaos := s2.vaos + 1 })
      else (some GLErr.resourceAllocationFailure, s1)
  else
    match correctionPassNew s with
    | (some e, s1) => (some e, s1)
    | (none, s1) =>
      if s1.texOk then
        let s2 : GLState := { s1 with textures := s1.textures + 1 }
        let s3 : GLState := { s2 with textures := s2.textures - 1 }
        (none, { s3 with programs := s3.programs + 1, vaos := s3.vaos + 1 })
      else (some GLErr.resourceAllocationFailure, s1)

/-- `WideAngleCorrectionProjection.createMesh` of the image-only variant
(src/unnamed/part_007): video check first, then cube check, dimension
checks, `CorrectionPass` construction and the input-texture sequence. -/
def createMeshImageOnly (maxTextureSize outputWidth outputHeight : ℕ)
    (tex : SrcTexture) (s : GLState) : Option GLErr × GLState :=
  if tex.isVideo then (some GLErr.unsupportedSourceKind, s)
  else if tex.isCube then (some GLErr.unsupportedSourceKind, s)
  else if tex.width > maxTextureSize ∨ tex.height > maxTextureSize then
    (some GLErr.dimensionExceedsDeviceLimit, s)
  else if outputWidth > maxTextureSize ∨ outputHeight > maxTextureSize then
    (some GLErr.dimensionExceedsDeviceLimit, s)
  else
    match correctionPassNew s with
    | (some e, s1) => (some e, s1)
    | (none, s1) =>
      if s1.texOk then
        let s2 : GLState := { s1 with textures := s1.textures + 1 }
        let s3 : GLState := { s2 with textures := s2.textures - 1 }
        (none, { s3 with programs := s3.programs + 1, vaos := s3.vaos + 1 })
      else (some GLErr.resourceAllocationFailure, s1)

/-! ### C5 -/

/-- C5 counterexample: when `gl.createTexture` returns `null` on the image
path, `createMesh` propagates `ResourceAllocationFailure` while the
`CorrectionPass` allocated earlier in the same call (framebuffer, target
texture, program and quad buffer — 4 live objects) is never freed, so the
error does NOT leave the GPU state as it was. -/
theorem createMesh_leak_counterexample :
    (createMesh 4096 4096 2048 ⟨false, false, 100, 100⟩
        ⟨false, true, 0, 0, 0, 0, 0⟩).1 = some GLErr.resourceAllocationFailure ∧
    (createMesh 4096 4096 2048 ⟨false, false, 100, 100⟩
        ⟨false, true, 0, 0, 0, 0, 0⟩).2.live = 4 ∧
    GLState.live ⟨false, true, 0, 0, 0, 0, 0⟩ = 0 := by
  decide

/-- C5 (amended): both `createMesh` variants raise `UnsupportedSourceKind`
(cube texture; video in the image-only variant), `DimensionExceedsDeviceLimit`
and `ResourceAllocationFailure` synchronously; the source-kind and dimension
errors occur before any GPU allocation and leave the state untouched, but a
`ResourceAllocationFailure` may leave the GPU allocations made earlier in the
same call live (the correction pass is not freed when input-texture creation
fails). When the checks pass and both allocations succeed, no error is
raised. -/
theorem createMesh_error_policy :
    ∀ (maxSize outW outH : ℕ) (tex : SrcTexture) (s : GLState),
      (tex.isCube = true →
        createMesh maxSize outW outH tex s = (some GLErr.unsupportedSourceKind, s)) ∧
      (tex.isVideo = true →
        createMeshImageOnly maxSize outW outH tex s =
          (some GLErr.unsupportedSourceKind, s)) ∧
      (tex.isCube = false → (tex.width > maxSize ∨ tex.height > maxSize) →
        createMesh maxSize outW outH tex s =
          (some GLErr.dimensionExceedsDeviceLimit, s)) ∧
      (tex.isCube = false → tex.width ≤ maxSize → tex.height ≤ maxSize →
        (outW > maxSize ∨ outH > maxSize) →
        createMesh maxSize outW outH tex s =
          (some GLErr.dimensionExceedsDeviceLimit, s)) ∧
      (∀ e s', createMesh maxSize outW outH tex s = (some e, s') →
        e = GLErr.resourceAllocationFailure ∨ s' = s) ∧
      (∀ e s', createMeshImageOnly maxSize outW outH tex s = (some e, s') →
        e = GLErr.resourceAllocationFailure ∨ s' = s) ∧
      (tex.isCube = false → tex.width ≤ maxSize → tex.height ≤ maxSize →
        outW ≤ maxSize → outH ≤ maxSize → s.texOk = true → s.bufOk = true →
        (createMesh maxSize outW outH tex s).1 = none) := by
  intro maxSize outW outH tex s
  refine ⟨?_, ?_, ?_, ?_, ?_, ?_, ?_⟩
  · intro hc
    simp [createMesh, hc]
  · intro hv
    simp [createMeshImageOnly, hv]
  · intro hc hdim
    simp [createMesh, hc, hdim]
  · intro hc hw hh hdim
    rw [createMesh]
    simp only [hc, Bool.false_eq_true, if_false]
    rw [if_neg (by omega), if_pos hdim]
  · intro e s' heq
    unfold createMesh correctionPassNew at heq
    cases hb : s.bufOk <;> cases ht : s.texOk <;>
      (simp [hb, ht] at heq; split_ifs at heq <;> simp_all)
  · intro e s' heq
    unfold createMeshImageOnly correctionPassNew at heq
    cases hb : s.bufOk <;> cases ht : s.texOk <;>
      (simp [hb, ht] at heq; split_ifs at heq <;> simp_all)
  · intro hc hw hh how hoh htex hbuf
    unfold createMesh correctionPassNew
    rw [if_neg (by simp [hc]), if_neg (by omega), if_neg (by omega)]
    split_ifs <;> simp_all

/-- Witness for C5 (amended) at concrete inputs: a cube texture is rejected
with the state untouched, a video is rejected by the image-only variant, and
a well-formed image with working allocations builds a mesh without error. -/
theorem createMesh_error_policy_witness :
    createMesh 4096 4096 2048 ⟨true, false, 10, 10⟩ ⟨true, true, 0, 0, 0, 0, 0⟩ =
      (some GLErr.unsupportedSourceKind, ⟨true, true, 0, 0, 0, 0, 0⟩) ∧
    createMeshImageOnly 4096 4096 2048 ⟨false, true, 10, 10⟩ ⟨true, true, 0, 0, 0, 0, 0⟩ =
      (some GLErr.unsupportedSourceKind, ⟨true, true, 0, 0, 0, 0, 0⟩) ∧
    (createMesh 4096 4096 2048 ⟨false, false, 10, 10⟩ ⟨true, true, 0, 0, 0, 0, 0⟩).1 =
      none :=
  ⟨(createMesh_error_policy 4096 4096 2048 ⟨true, false, 10, 10⟩
      ⟨true, true, 0, 0, 0, 0, 0⟩).1 rfl,
   (createMesh_error_policy 4096 4096 2048 ⟨false, true, 10, 10⟩
      ⟨true, true, 0, 0, 0, 0, 0⟩).2.1 rfl,
   (createMesh_error_policy 4096 4096 2048 ⟨false, false, 10, 10⟩
      ⟨true, true, 0, 0, 0, 0, 0⟩).2.2.2.2.2.2 rfl (by norm_num) (by norm_num)
      (by norm_num) (by norm_num) rfl rfl⟩

/-! ### `UniformWideAngleCorrectedVideoTexture.update` (FBO video path,
src/unnamed/part_006) -/

/-- What one `update()` call of the corrected-video texture uniform did:
whether a frame was uploaded into the owned input texture, whether
`CorrectionPass.render` was re-invoked and with which input dimensions, and
the new `_initialized` flag. -/
structure VideoUpdateResult where
  uploaded : Bool
  rendered : Bool
  renderSize : Option (ℕ × ℕ)
  initialized : Bool
deriving DecidableEq

/-- `UniformWideAngleCorrectedVideoTexture.update`: enters the work block
unless the source is a paused video with a correction already performed;
inside, a video that is not ready (`readyState < 2` or zero dimensions) just
binds the existing render target and returns; otherwise the current frame is
uploaded and `CorrectionPass.render` re-invoked with
`videoWidth || texture.width` × `videoHeight || texture.height`. -/
def correctedVideoUpdate (isVideo isPaused initialized : Bool)
    (readyState videoWidth videoHeight texWidth texHeight : ℕ) :
    VideoUpdateResult :=
  if isVideo = false ∨ isPaused = false ∨ initialized = false then
    if isVideo = true ∧ (readyState < 2 ∨ videoWidth = 0 ∨ videoHeight = 0) then
      ⟨false, false, none, initialized⟩
    else
      let w := if isVideo = true then
        (if videoWidth = 0 then texWidth else videoWidth) else texWidth
      let h := if isVideo = true then
        (if videoHeight = 0 then texHeight else videoHeight) else texHeight
      ⟨true, true, some (w, h), true⟩
  else ⟨false, false, none, initialized⟩

/-! ### C6 -/

/-- C6: in the FBO video path, `update()` re-invokes `CorrectionPass.render`
exactly when the video is not both paused and already corrected AND the video
is ready (`readyState ≥ 2`, non-zero dimensions); a paused, already-initialized
video leaves the render target untouched (no upload, no render); in every
other case with a ready video the frame is re-uploaded and render re-invoked
with the video's current `videoWidth`/`videoHeight`. -/
theorem correctedVideoUpdate_policy :
    ∀ (isPaused initialized : Bool) (readyState vw vh texW texH : ℕ),
      ((correctedVideoUpdate true isPaused initialized readyState vw vh texW
          texH).rendered = true ↔
        ¬(isPaused = true ∧ initialized = true) ∧
          2 ≤ readyState ∧ vw ≠ 0 ∧ vh ≠ 0) ∧
      (isPaused = true → initialized = true →
        correctedVideoUpdate true isPaused initialized readyState vw vh texW
            texH =
          ⟨false, false, none, initialized⟩) ∧
      (¬(isPaused = true ∧ initialized = true) → 2 ≤ readyState → vw ≠ 0 →
        vh ≠ 0 →
        correctedVideoUpdate true isPaused initialized readyState vw vh texW
            texH =
          ⟨true, true, some (vw, vh), true⟩) := by
  intro isPaused initialized readyState vw vh texW texH
  refine ⟨?_, ?_, ?_⟩
  · cases isPaused <;> cases initialized <;>
      simp [correctedVideoUpdate] <;> split_ifs <;> simp_all <;> omega
  · intro h1 h2
    subst h1; subst h2
    simp [correctedVideoUpdate]
  · intro hni h2 hw hh
    cases isPaused <;> cases initialized <;>
      simp_all [correctedVideoUpdate]

/-- Witness for C6: an unpaused, ready 1920×1080 video frame is uploaded and
re-rendered; a paused, already-corrected one is skipped. -/
theorem correctedVideoUpdate_policy_witness :
    correctedVideoUpdate true false true 4 1920 1080 640 480 =
      ⟨true, true, some (1920, 1080), true⟩ ∧
    correctedVideoUpdate true true true 4 1920 1080 640 480 =
      ⟨false, false, none, true⟩ :=
  ⟨(correctedVideoUpdate_policy false true 4 1920 1080 640 480).2.2
      (by simp) (by norm_num) (by norm_num) (by norm_num),
   (correctedVideoUpdate_policy true true 4 1920 1080 640 480).2.1 rfl rfl⟩

/-! ### `UniformTextureRenderTarget` (src/unnamed/part_003) -/

/-- The operations a `UniformTextureRenderTarget` receives over its life. -/
inductive UTOp where
  | update : UTOp
  | destroy : UTOp
deriving DecidableEq

/-- Observable state of a `UniformTextureRenderTarget`:
`_keepNeedsUpdateForDestroy`, whether `_onDestroy` is still non-null,
`needsUpdate`, and how many times the `onDestroy` callback has fired. -/
structure UTState where
  keepNeedsUpdateForDestroy : Bool
  onDestroyLive : Bool
  needsUpdate : Bool
  destroyCount : ℕ
deriving DecidableEq

/-- The constructor: `_onDestroy := onDestroy ?? null`,
`_keepNeedsUpdateForDestroy := !!onDestroy`, `needsUpdate := true`. -/
def UTState.construct (withOnDestroy : Bool) : UTState :=
  ⟨withOnDestroy, withOnDestroy, true, 0⟩

/-- One `update()` or `destroy()` call: `update` clears `needsUpdate` only
when `_keepNeedsUpdateForDestroy` is unset; `destroy` fires the callback and
nulls `_onDestroy` when it is still non-null, else does nothing. -/
def UTState.step (s : UTState) : UTOp → UTState
  | UTOp.update =>
    if s.keepNeedsUpdateForDestroy then s else { s with needsUpdate := false }
  | UTOp.destroy =>
    if s.onDestroyLive then
      { s with onDestroyLive := false, destroyCount := s.destroyCount + 1 }
    else s

/-- Folding a sequence of calls over a state. -/
def UTState.run (s : UTState) (ops : List UTOp) : UTState :=
  ops.foldl UTState.step s

theorem run_needsUpdate (ops : List UTOp) :
    ∀ s : UTState, s.keepNeedsUpdateForDestroy = true →
      (s.run ops).needsUpdate = s.needsUpdate := by
  induction ops with
  | nil => intro s _; rfl
  | cons op rest ih =>
    intro s hk
    cases op with
    | update =>
      show ((s.step UTOp.update).run rest).needsUpdate = _
      rw [UTState.step, if_pos hk]
      exact ih s hk
    | destroy =>
      show ((s.step UTOp.destroy).run rest).needsUpdate = _
      rw [UTState.step]
      split_ifs with hl
      · rw [ih _ (by simpa using hk)]
      · exact ih s hk

theorem run_destroyCount (ops : List UTOp) :
    ∀ s : UTState,
      (s.run ops).destroyCount =
        s.destroyCount +
          (if s.onDestroyLive = true ∧ UTOp.destroy ∈ ops then 1 else 0) := by
  induction ops with
  | nil => intro s; simp [UTState.run]
  | cons op rest ih =>
    intro s
    cases op with
    | update =>
      show ((s.step UTOp.update).run rest).destroyCount = _
      rw [UTState.step]
      by_cases hk : s.keepNeedsUpdateForDestroy = true
      · rw [if_pos hk, ih]
        simp
      · rw [if_neg hk, ih]
        simp
    | destroy =>
      show ((s.step UTOp.destroy).run rest).destroyCount = _
      rw [UTState.step]
      by_cases hl : s.onDestroyLive = true
      · rw [if_pos hl, ih]
        simp [hl]
      · rw [if_neg hl, ih]
        have hlf : s.onDestroyLive = false := by simpa using hl
        simp [hlf]

/-! ### C7 -/

/-- C7: a `UniformTextureRenderTarget` constructed with an `onDestroy`
callback has `needsUpdate = true` at construction and after every sequence of
`update()`/`destroy()` calls (so mesh teardown always reaches its
`destroy()`), and over any such sequence the `onDestroy` callback — the one
that calls `CorrectionPass.destroy()` — fires exactly once if `destroy()` is
ever invoked and never otherwise, hence at most once no matter how many
release paths call it. -/
theorem uniformTextureRenderTarget_invariants :
    ∀ ops : List UTOp,
      (UTState.construct true).needsUpdate = true ∧
      ((UTState.construct true).run ops).needsUpdate = true ∧
      ((UTState.construct true).run ops).destroyCount =
        (if UTOp.destroy ∈ ops then 1 else 0) := by
  intro ops
  refine ⟨?_, ?_, ?_⟩
  · rfl
  · rw [run_needsUpdate ops (UTState.construct true) rfl]
    rfl
  · rw [run_destroyCount ops (UTState.construct true)]
    simp [UTState.construct]

/-! ### `CorrectionPass.render` (src/packages/view360/src/projection/CorrectionPass.ts) -/

/-- `CorrectionParams`: mode and the angle/FOV fields, in degrees. -/
structure CParams where
  modeFisheye : Bool
  yaw : ℤ
  pitch : ℤ
  roll : ℤ
  hfov : ℤ
  vfov : ℤ
  fisheyeFov : ℤ
deriving DecidableEq

/-- A complete draw into a render target: which input texture was sampled,
its reported dimensions and the correction parameters of the draw. -/
structure RenderWrite where
  inputTex : ℕ
  inputW : ℕ
  inputH : ℕ
  params : CParams
deriving DecidableEq

/-- WebGL context state that `CorrectionPass.render` touches: the bound
framebuffer (`none` = the default framebuffer), the viewport, the canvas
size, the framebuffer → color-texture attachment map, each texture's
contents, the default framebuffer's contents and the number of live GPU
objects. `ctx.bindFramebuffer`/`ctx.resize` are thin wrappers over
`gl.bindFramebuffer`/`gl.viewport`; Modelled from the spec: they bind the
framebuffer they are given (the default for `null`) and set the viewport to
the canvas size — "always restoring the default framebuffer/viewport at the
end of `render`". -/
structure GL8 where
  boundFB : Option ℕ
  viewport : ℕ × ℕ
  canvas : ℕ × ℕ
  attach : ℕ → ℕ
  texData : ℕ → Option RenderWrite
  screenData : Option RenderWrite
  liveObjects : ℕ

/-- A constructed `CorrectionPass`: its framebuffer, the render-target
texture attached to it, and the output size. -/
structure Pass8 where
  fb : ℕ
  targetTex : ℕ
  outW : ℕ
  outH : ℕ

/-- A full-screen clear + draw: writes the bound framebuffer's attachment
(or the default framebuffer when none is bound). -/
def drawToBound (d : RenderWrite) (s : GL8) : GL8 :=
  match s.boundFB with
  | some fb => { s with texData := Function.update s.texData (s.attach fb) (some d) }
  | none => { s with screenData := some d }

/-- `CorrectionPass.render`: bind the pass's FBO, set the viewport to the
output size, clear and draw the full-screen quad (a complete write of the
render target), then bind the default framebuffer (`ctx.bindFramebuffer(null)`)
and reset the viewport to the canvas size (`ctx.resize()`). Uniform and
attribute writes touch no tracked resource; no GPU object is created or
deleted. -/
def passRender (p : Pass8) (inputTexture inW inH : ℕ) (prm : CParams)
    (s : GL8) : GL8 :=
  let s1 : GL8 := { s with boundFB := some p.fb }
  let s2 : GL8 := { s1 with viewport := (p.outW, p.outH) }
  let s3 : GL8 := drawToBound ⟨inputTexture, inW, inH, prm⟩ s2
  let s4 : GL8 := { s3 with boundFB := none }
  { s4 with viewport := s4.canvas }

/-! ### C8 -/

/-- C8 counterexample: `render` does not restore the previously bound
framebuffer — from a state whose bound framebuffer is FBO 7, `render` returns
with the default framebuffer bound instead. -/
theorem passRender_restore_counterexample :
    (passRender ⟨1, 2, 4096, 2048⟩ 5 100 100 ⟨false, 0, 0, 0, 180, 90, 180⟩
        ⟨some 7, (10, 10), (640, 480), fun _ => 2, fun _ => none, none, 3⟩).boundFB ≠
      (⟨some 7, (10, 10), (640, 480), fun _ => 2, fun _ => none, none,
        3⟩ : GL8).boundFB := by
  simp [passRender, drawToBound]

/-- C8 (amended): at the end of every `CorrectionPass.render` call the
DEFAULT framebuffer and the canvas-size viewport are bound (not the
previously bound ones), so the subsequent main draw — which renders to the
default framebuffer — samples the fully written output texture; `render`
mutates only the pass's own render-target texture, leaves every other
texture and the default framebuffer's contents unchanged, and allocates or
frees no GPU objects. -/
theorem passRender_effects :
    ∀ (p : Pass8) (inputTexture inW inH : ℕ) (prm : CParams) (s : GL8),
      s.attach p.fb = p.targetTex →
      (passRender p inputTexture inW inH prm s).boundFB = none ∧
      (passRender p inputTexture inW inH prm s).viewport = s.canvas ∧
      (passRender p inputTexture inW inH prm s).canvas = s.canvas ∧
      (passRender p inputTexture inW inH prm s).liveObjects = s.liveObjects ∧
      (passRender p inputTexture inW inH prm s).texData p.targetTex =
        some ⟨inputTexture, inW, inH, prm⟩ ∧
      (∀ t : ℕ, t ≠ p.targetTex →
        (passRender p inputTexture inW inH prm s).texData t = s.texData t) ∧
      (passRender p inputTexture inW inH prm s).screenData = s.screenData := by
  intro p inputTexture inW inH prm s hattach
  unfold passRender drawToBound
  dsimp only
  refine ⟨rfl, rfl, rfl, rfl, ?_, ?_, rfl⟩
  · rw [hattach, Function.update_same]
  · intro t ht
    rw [hattach, Function.update_noteq ht]

/-- Witness for C8 (amended) at a concrete pass and state. -/
theorem passRender_effects_witness :
    (fun _ : ℕ => 2) 1 = 2 ∧
    (passRender ⟨1, 2, 4096, 2048⟩ 5 100 100 ⟨false, 0, 0, 0, 180, 90, 180⟩
        ⟨none, (10, 10), (640, 480), fun _ => 2, fun _ => none, none, 3⟩).boundFB =
      none ∧
    (passRender ⟨1, 2, 4096, 2048⟩ 5 100 100 ⟨false, 0, 0, 0, 180, 90, 180⟩
        ⟨none, (10, 10), (640, 480), fun _ => 2, fun _ => none, none, 3⟩).texData 2 =
      some ⟨5, 100, 100, ⟨false, 0, 0, 0, 180, 90, 180⟩⟩ ∧
    (passRender ⟨1, 2, 4096, 2048⟩ 5 100 100 ⟨false, 0, 0, 0, 180, 90, 180⟩
        ⟨none, (10, 10), (640, 480), fun _ => 2, fun _ => none, none, 3⟩).texData 9 =
      (fun _ : ℕ => (none : Option RenderWrite)) 9 := by
  have h := passRender_effects ⟨1, 2, 4096, 2048⟩ 5 100 100
    ⟨false, 0, 0, 0, 180, 90, 180⟩
    ⟨none, (10, 10), (640, 480), fun _ => 2, fun _ => none, none, 3⟩ rfl
  exact ⟨rfl, h.1, h.2.2.2.2.1, h.2.2.2.2.2.1 9 (by norm_num)⟩

/-! ### `RealtimeCorrectionTextureUniform` (WideAngleRealtimeProjection.ts) -/

/-- What is currently uploaded in the realtime source texture: nothing yet, a
raw pixel upload (`texImage2D` with explicit size and bytes), or a full
source frame. -/
inductive TexUpload where
  | empty : TexUpload
  | pixels (w h r g b a : ℕ) : TexUpload
  | frame (w h : ℕ) : TexUpload
deriving DecidableEq

/-- Observable state of a `RealtimeCorrectionTextureUniform` together with
its paired `uImgSize` uniform: `_initialized`, the uniform's own
`needsUpdate`, whether `setImgSizeUniform` was called, the `uImgSize` value
and dirty flag, and the current texture contents. -/
structure RTTexState where
  initialized : Bool
  needsUpdate : Bool
  hasImgSizeUniform : Bool
  imgSize : ℕ × ℕ
  imgSizeNeedsUpdate : Bool
  texData : TexUpload
deriving DecidableEq

/-- `_uploadPlaceholder`: does nothing when already initialized; otherwise
uploads the 1×1 opaque-black pixel `[0, 0, 0, 255]`, bumps a nonpositive
`uImgSize` to `{1,1}`, and marks the uniform initialized. -/
def uploadPlaceholder (s : RTTexState) : RTTexState :=
  if s.initialized then s
  else
    let s1 : RTTexState := { s with texData := TexUpload.pixels 1 1 0 0 0 255 }
    let s2 : RTTexState :=
      if s1.hasImgSizeUniform ∧ (s1.imgSize.1 = 0 ∨ s1.imgSize.2 = 0) then
        { s1 with imgSize := (1, 1), imgSizeNeedsUpdate := true }
      else s1
    { s2 with initialized := true }

/-- `RealtimeCorrectionTextureUniform.update`: for a video that is not ready
(`readyState < 2` or nonpositive dimensions) it takes the placeholder path
and returns; for a ready video it syncs `uImgSize` when the reported
dimensions changed and uploads the current frame (keeping `needsUpdate`
so videos re-upload every frame); for an image it uploads once and clears
`needsUpdate`. The source contains no `throw` on this path, so the embedding
is a total function — no error is ever raised. -/
def realtimeTexUpdate (isVideo : Bool) (readyState vw vh texW texH : ℕ)
    (s : RTTexState) : RTTexState :=
  if isVideo then
    if readyState < 2 ∨ vw = 0 ∨ vh = 0 then uploadPlaceholder s
    else
      let s1 : RTTexState :=
        if s.hasImgSizeUniform ∧ s.imgSize ≠ (vw, vh) then
          { s with imgSize := (vw, vh), imgSizeNeedsUpdate := true }
        else s
      { s1 with texData := TexUpload.frame vw vh, initialized := true }
  else
    { s with texData := TexUpload.frame texW texH, initialized := true,
             needsUpdate := false }

/-- A sequence of `update()` calls with a video source, each input being
`(readyState, videoWidth, videoHeight)`. -/
def realtimeTexRun (texW texH : ℕ) (inputs : List (ℕ × ℕ × ℕ))
    (s : RTTexState) : RTTexState :=
  inputs.foldl (fun st i => realtimeTexUpdate true i.1 i.2.1 i.2.2 texW texH st) s

theorem run_initialized_fixed (texW texH : ℕ) (inputs : List (ℕ × ℕ × ℕ)) :
    ∀ s : RTTexState, s.initialized = true →
      (∀ i ∈ inputs, i.1 < 2 ∨ i.2.1 = 0 ∨ i.2.2 = 0) →
      realtimeTexRun texW texH inputs s = s := by
  induction inputs with
  | nil => intro s _ _; rfl
  | cons i rest ih =>
    intro s hi hall
    have hstep : realtimeTexUpdate true i.1 i.2.1 i.2.2 texW texH s = s := by
      rw [realtimeTexUpdate, if_pos rfl,
        if_pos (hall i (List.mem_cons_self i rest)), uploadPlaceholder, if_pos hi]
    show realtimeTexRun texW texH rest
      (realtimeTexUpdate true i.1 i.2.1 i.2.2 texW texH s) = s
    rw [hstep]
    exact ih s hi fun j hj => hall j (List.mem_cons_of_mem i hj)

theorem run_unready (texW texH w0 h0 : ℕ) (inputs : List (ℕ × ℕ × ℕ))
    (hne : inputs ≠ [])
    (hall : ∀ i ∈ inputs, i.1 < 2 ∨ i.2.1 = 0 ∨ i.2.2 = 0) :
    (realtimeTexRun texW texH inputs
        ⟨false, true, true, (w0, h0), false, TexUpload.empty⟩).texData =
      TexUpload.pixels 1 1 0 0 0 255 ∧
    ((realtimeTexRun texW texH inputs
        ⟨false, true, true, (w0, h0), false, TexUpload.empty⟩).imgSize = (w0, h0) ∨
     (realtimeTexRun texW texH inputs
        ⟨false, true, true, (w0, h0), false, TexUpload.empty⟩).imgSize = (1, 1)) := by
  obtain ⟨i, rest, rfl⟩ : ∃ i rest, inputs = i :: rest := by
    cases inputs with
    | nil => exact absurd rfl hne
    | cons a b => exact ⟨a, b, rfl⟩
  have hstep : realtimeTexUpdate true i.1 i.2.1 i.2.2 texW texH
      ⟨false, true, true, (w0, h0), false, TexUpload.empty⟩ =
      uploadPlaceholder ⟨false, true, true, (w0, h0), false, TexUpload.empty⟩ := by
    rw [realtimeTexUpdate, if_pos rfl, if_pos (hall i (List.mem_cons_self i rest))]
  have hinit : (uploadPlaceholder
      ⟨false, true, true, (w0, h0), false, TexUpload.empty⟩).initialized = true := by
    rw [uploadPlaceholder, if_neg (by simp)]
  have hrun : realtimeTexRun texW texH (i :: rest)
      ⟨false, true, true, (w0, h0), false, TexUpload.empty⟩ =
      uploadPlaceholder ⟨false, true, true, (w0, h0), false, TexUpload.empty⟩ := by
    show realtimeTexRun texW texH rest
      (realtimeTexUpdate true i.1 i.2.1 i.2.2 texW texH _) = _
    rw [hstep]
    exact run_initialized_fixed texW texH rest _ hinit
      fun j hj => hall j (List.mem_cons_of_mem i hj)
  rw [hrun, uploadPlaceholder, if_neg (by simp)]
  dsimp only
  by_cases hz : w0 = 0 ∨ h0 = 0
  · rw [if_pos (by simpa using hz)]
    exact ⟨rfl, Or.inr rfl⟩
  · rw [if_neg (by simpa using hz)]
    exact ⟨rfl, Or.inl rfl⟩

/-! ### C9 -/

/-- C9: with a video source reporting `readyState < 2` or zero dimensions,
`update()` never throws (the embedding is a total function over the source's
throw-free path) and routes through the placeholder path: a not-yet-initialized
uniform uploads the 1×1 opaque-black placeholder (`[0,0,0,255]`), the paired
image-size uniform is bumped to `{1,1}` only when it was nonpositive and is
otherwise left at its construction value — over any nonempty run of unready
updates it remains at its initial value or `{1,1}` — and once a frame with
ready state and non-zero dimensions arrives, the current frame is uploaded
(and re-uploaded on every later call, since `needsUpdate` is not cleared for
videos) with the image-size uniform synced to the frame's dimensions. -/
theorem realtimeTexUpdate_placeholder :
    (∀ (s : RTTexState) (ready vw vh texW texH : ℕ),
      (ready < 2 ∨ vw = 0 ∨ vh = 0) → s.initialized = false →
      (realtimeTexUpdate true ready vw vh texW texH s).texData =
        TexUpload.pixels 1 1 0 0 0 255 ∧
      (realtimeTexUpdate true ready vw vh texW texH s).imgSize =
        (if s.hasImgSizeUniform = true ∧ (s.imgSize.1 = 0 ∨ s.imgSize.2 = 0)
          then (1, 1) else s.imgSize) ∧
      (realtimeTexUpdate true ready vw vh texW texH s).initialized = true) ∧
    (∀ (w0 h0 texW texH : ℕ) (inputs : List (ℕ × ℕ × ℕ)),
      inputs ≠ [] → (∀ i ∈ inputs, i.1 < 2 ∨ i.2.1 = 0 ∨ i.2.2 = 0) →
      (realtimeTexRun texW texH inputs
          ⟨false, true, true, (w0, h0), false, TexUpload.empty⟩).texData =
        TexUpload.pixels 1 1 0 0 0 255 ∧
      ((realtimeTexRun texW texH inputs
          ⟨false, true, true, (w0, h0), false, TexUpload.empty⟩).imgSize =
          (w0, h0) ∨
       (realtimeTexRun texW texH inputs
          ⟨false, true, true, (w0, h0), false, TexUpload.empty⟩).imgSize =
          (1, 1))) ∧
    (∀ (s : RTTexState) (ready vw vh texW texH : ℕ),
      2 ≤ ready → vw ≠ 0 → vh ≠ 0 →
      (realtimeTexUpdate true ready vw vh texW texH s).texData =
        TexUpload.frame vw vh ∧
      (realtimeTexUpdate true ready vw vh texW texH s).needsUpdate =
        s.needsUpdate ∧
      (realtimeTexUpdate true ready vw vh texW texH s).initialized = true ∧
      (s.hasImgSizeUniform = true →
        (realtimeTexUpdate true ready vw vh texW texH s).imgSize = (vw, vh))) := by
  refine ⟨?_, ?_, ?_⟩
  · intro s ready vw vh texW texH hcond hinit
    rw [realtimeTexUpdate, if_pos rfl, if_pos hcond, uploadPlaceholder,
      if_neg (by simp [hinit])]
    dsimp only
    split_ifs with h
    · exact ⟨rfl, rfl, rfl⟩
    · exact ⟨rfl, rfl, rfl⟩
  · intro w0 h0 texW texH inputs hne hall
    exact run_unready texW texH w0 h0 inputs hne hall
  · intro s ready vw vh texW texH h2 hw hh
    rw [realtimeTexUpdate, if_pos rfl, if_neg (by omega)]
    dsimp only
    split_ifs with h
    · exact ⟨rfl, rfl, rfl, fun _ => rfl⟩
    · push_neg at h
      exact ⟨rfl, rfl, rfl, fun hu => h hu⟩

/-- Witness for C9: one unready update of a fresh uniform with construction
size 1920×1080 uploads the black placeholder and leaves the image-size
uniform at its construction value; a later ready 1920×1080 frame is uploaded
as a full frame. -/
theorem realtimeTexUpdate_placeholder_witness :
    (realtimeTexUpdate true 0 0 0 640 480
        ⟨false, true, true, (1920, 1080), false, TexUpload.empty⟩).texData =
      TexUpload.pixels 1 1 0 0 0 255 ∧
    (realtimeTexUpdate true 0 0 0 640 480
        ⟨false, true, true, (1920, 1080), false, TexUpload.empty⟩).imgSize =
      (1920, 1080) ∧
    (realtimeTexUpdate true 4 1920 1080 640 480
        ⟨true, true, true, (1920, 1080), false,
          TexUpload.pixels 1 1 0 0 0 255⟩).texData =
      TexUpload.frame 1920 1080 := by
  have ha := realtimeTexUpdate_placeholder.1
    ⟨false, true, true, (1920, 1080), false, TexUpload.empty⟩ 0 0 0 640 480
    (Or.inl (by norm_num)) rfl
  have hc := realtimeTexUpdate_placeholder.2.2
    ⟨true, true, true, (1920, 1080), false, TexUpload.pixels 1 1 0 0 0 255⟩
    4 1920 1080 640 480 (by norm_num) (by norm_num) (by norm_num)
  refine ⟨ha.1, ?_, hc.1⟩
  rw [ha.2.1]
  norm_num

end View360
